import Mathlib

/-!
Verification development for the Console-viewer scan pipeline
(src/server.ts) and its history query endpoints.

The browser-automation engine (puppeteer), the socket transport and the
SQLite store are external collaborators; one run of the `scan-url` socket
handler is modelled as a pure function of an `EngineBehavior` record that
fixes the outcome of every external call the handler awaits (launch,
newPage/setViewport, goto, screenshot, INSERT, close) and the timestamped
engine callbacks that fire while the page is live.  Machine integers are
`Nat`; JS strings are `String`; a thrown JS error is `Except.error` carrying
its `.message`; `JSON.stringify`/`JSON.parse` of the plain entry objects is a
faithful round trip and is modelled by storing the structured lists
themselves.
-/

deriving instance DecidableEq for Except

namespace ConsoleViewer

/-- The guard `netEntry.url.startsWith("data:")` used on both network capture
paths (src/server.ts:106 and 121): the URL's first five characters are
`data:`.  Written out over the string's characters so that it evaluates by
kernel reduction. -/
def startsWithData (url : String) : Bool :=
  match url.data with
  | 'd' :: 'a' :: 't' :: 'a' :: ':' :: _ => true
  | _ => false

/-- A log entry as built by the `page.on("console")` and `page.on("pageerror")`
handlers in src/server.ts: `{ type, text, args?, timestamp }`. -/
structure LogEntry where
  type : String
  text : String
  args : Option (List String)
  timestamp : String

deriving DecidableEq

/-- A network entry as built by the `page.on("response")` and
`page.on("requestfailed")` handlers in src/server.ts:
`{ url, status, method, type, errorText?, timestamp }`. -/
structure NetworkEntry where
  url : String
  status : Nat
  method : String
  type : String
  errorText : Option String
  timestamp : String

deriving DecidableEq

/-- One engine callback that can fire on the page while the scan handler's
subscriptions are installed, carrying exactly the data the handler reads. -/
inductive PageEvent where
  | console (msgType : String) (text : String) (args : List String)
  | pageerror (text : String)
  | response (url : String) (status : Nat) (method : String) (resourceType : String)
  | requestfailed (url : String) (method : String) (resourceType : String)
      (failureText : Option String)

deriving DecidableEq

/-- A callback together with the wall-clock reading `new Date().toISOString()`
returns at the moment it fires. -/
structure TimedEvent where
  time : String
  ev : PageEvent

deriving DecidableEq

/-- Payload of the terminal `scan-complete` socket message:
`{ status: "success", scanId }` or `{ status: "error", message }`. -/
inductive ScanCompletePayload where
  | success (scanId : Nat)
  | error (message : String)

deriving DecidableEq

/-- One message pushed to the requesting socket connection, tagged by event
name as in src/server.ts. -/
inductive SocketMsg where
  | consoleLog (e : LogEntry)
  | networkLog (e : NetworkEntry)
  | screenshot (data : String)
  | scanComplete (p : ScanCompletePayload)

deriving DecidableEq

/-- Log entry built by the `page.on("console")` handler (src/server.ts:74-83). -/
def consoleEntry (time msgType text : String) (args : List String) : LogEntry :=
  { type := msgType, text := text, args := some args, timestamp := time }

/-- Log entry built by the `page.on("pageerror")` handler
(src/server.ts:86-94); no `args` field. -/
def pageerrorEntry (time text : String) : LogEntry :=
  { type := "error", text := text, args := none, timestamp := time }

/-- Network entry built by the `page.on("response")` handler
(src/server.ts:97-110); no `errorText` field. -/
def responseEntry (time url : String) (status : Nat) (method resourceType : String) :
    NetworkEntry :=
  { url := url, status := status, method := method, type := resourceType,
    errorText := none, timestamp := time }

/-- Network entry built by the `page.on("requestfailed")` handler
(src/server.ts:112-125): status 0 and
`errorText: request.failure()?.errorText || "Failed"`. -/
def requestfailedEntry (time url method resourceType : String)
    (failureText : Option String) : NetworkEntry :=
  { url := url, status := 0, method := method, type := resourceType,
    errorText := some (failureText.getD "Failed"), timestamp := time }

/-- The mutable per-session buffers `logs` and `networkLogs` of the handler,
together with the messages emitted to the socket so far. -/
structure CaptureState where
  logs : List LogEntry
  networkLogs : List NetworkEntry
  emitted : List SocketMsg

deriving DecidableEq

/-- One callback firing: normalize, append to the session buffer, publish —
exactly the four `page.on` handlers of src/server.ts:74-125, including the
`data:`-scheme filter on both network paths. -/
def handleEvent (st : CaptureState) (te : TimedEvent) : CaptureState :=
  match te.ev with
  | .console msgType text args =>
      let e := consoleEntry te.time msgType text args
      { st with logs := st.logs ++ [e], emitted := st.emitted ++ [.consoleLog e] }
  | .pageerror text =>
      let e := pageerrorEntry te.time text
      { st with logs := st.logs ++ [e], emitted := st.emitted ++ [.consoleLog e] }
  | .response url status method resourceType =>
      let e := responseEntry te.time url status method resourceType
      if ¬ startsWithData url then
        { st with networkLogs := st.networkLogs ++ [e],
                  emitted := st.emitted ++ [.networkLog e] }
      else st
  | .requestfailed url method resourceType failureText =>
      let e := requestfailedEntry te.time url method resourceType failureText
      if ¬ startsWithData url then
        { st with networkLogs := st.networkLogs ++ [e],
                  emitted := st.emitted ++ [.networkLog e] }
      else st

/-- Run a sequence of engine callbacks against empty buffers. -/
def capture (events : List TimedEvent) : CaptureState :=
  events.foldl handleEvent ⟨[], [], []⟩

/-- Outcomes of every external call one run of the `scan-url` handler awaits,
plus the callbacks delivered while subscriptions are installed.  `errTime` is
the clock reading taken inside the catch block. -/
structure EngineBehavior where
  launch : Except String Unit
  page : Except String Unit
  events : List TimedEvent
  nav : Except String Unit
  shot : Except String String
  insertRes : Except String Nat
  close : Except String Unit
  errTime : String

deriving DecidableEq

/-- A row as inserted by `INSERT INTO scans (url, logs, network, screenshot,
error_count, warn_count)` (src/server.ts:136-137); `id`/`timestamp` are
assigned by the store. -/
structure ScanRow where
  url : String
  logs : List LogEntry
  network : List NetworkEntry
  screenshot : String
  error_count : Nat
  warn_count : Nat

deriving DecidableEq

/-- Everything observable from one run of the `scan-url` handler: socket
messages in emission order, rows inserted into the store, number of
`browser.close()` invocations, and the error (if any) escaping the async
handler. -/
structure ScanOutput where
  emitted : List SocketMsg
  inserted : List ScanRow
  closeCalls : Nat
  propagated : Option String

deriving DecidableEq

/-- The synthetic error log entry emitted in the catch block
(src/server.ts:143-147). -/
def syntheticLog (message time : String) : LogEntry :=
  { type := "error", text := "Failed to load page: " ++ message, args := none,
    timestamp := time }

/-- The finally block (src/server.ts:149-153): `if (browser) await
browser.close()`; a rejection of `close` is not caught and escapes the
handler. -/
def closeCallsOf (acquired : Bool) : Nat :=
  if acquired then 1 else 0

/-- The error escaping the handler from the finally block, if any. -/
def propagatedOf (acquired : Bool) (closeRes : Except String Unit) : Option String :=
  if acquired then
    match closeRes with
    | .ok _ => none
    | .error e => some e
  else none

/-- Output of the catch block (src/server.ts:141-148) followed by the finally
block, given the messages already emitted inside the try block. -/
def catchOutput (already : List SocketMsg) (message : String) (b : EngineBehavior)
    (acquired : Bool) : ScanOutput :=
  { emitted := already ++ [.consoleLog (syntheticLog message b.errTime),
                           .scanComplete (.error message)],
    inserted := [],
    closeCalls := closeCallsOf acquired,
    propagated := propagatedOf acquired b.close }

/-- One run of the `scan-url` socket handler (src/server.ts:58-154), as a
function of the external behavior. -/
def scanUrl (url : String) (b : EngineBehavior) : ScanOutput :=
  match b.launch with
  | .error e => catchOutput [] e b false
  | .ok _ =>
    match b.page with
    | .error e => catchOutput [] e b true
    | .ok _ =>
      let st := capture b.events
      match b.nav with
      | .error e => catchOutput st.emitted e b true
      | .ok _ =>
        match b.shot with
        | .error e => catchOutput st.emitted e b true
        | .ok screenshotBase64 =>
          let emitted1 := st.emitted ++ [.screenshot screenshotBase64]
          let errorCount := (st.logs.filter (fun l => l.type == "error")).length
          let warnCount := (st.logs.filter (fun l => l.type == "warn")).length
          match b.insertRes with
          | .error e => catchOutput emitted1 e b true
          | .ok rowid =>
            { emitted := emitted1 ++ [.scanComplete (.success rowid)],
              inserted := [{ url := url, logs := st.logs, network := st.networkLogs,
                             screenshot := screenshotBase64,
                             error_count := errorCount, warn_count := warnCount }],
              closeCalls := closeCallsOf true,
              propagated := propagatedOf true b.close }

/-- The message of the first external failure of a run, `none` when every
phase succeeds — the error the catch block of src/server.ts observes. -/
def failMsg (b : EngineBehavior) : Option String :=
  match b.launch with
  | .error e => some e
  | .ok _ =>
    match b.page with
    | .error e => some e
    | .ok _ =>
      match b.nav with
      | .error e => some e
      | .ok _ =>
        match b.shot with
        | .error e => some e
        | .ok _ =>
          match b.insertRes with
          | .error e => some e
          | .ok _ => none

/-- Whether `puppeteer.launch` resolved, i.e. the local `browser` variable was
assigned and the finally block will call `close`. -/
def acquiredBrowser (b : EngineBehavior) : Bool :=
  match b.launch with
  | .ok _ => true
  | .error _ => false

/-- Socket messages the try block emitted before the point of failure:
nothing before the subscriptions exist, the captured entries once they do,
plus the screenshot message once the screenshot succeeded. -/
def emittedBeforeCatch (b : EngineBehavior) : List SocketMsg :=
  match b.launch with
  | .error _ => []
  | .ok _ =>
    match b.page with
    | .error _ => []
    | .ok _ =>
      match b.nav with
      | .error _ => (capture b.events).emitted
      | .ok _ =>
        match b.shot with
        | .error _ => (capture b.events).emitted
        | .ok s => (capture b.events).emitted ++ [.screenshot s]

/-- The row inserted on the success path of the handler
(src/server.ts:132-137), for a given screenshot string. -/
def successRow (url : String) (b : EngineBehavior) (s : String) : ScanRow :=
  { url := url,
    logs := (capture b.events).logs,
    network := (capture b.events).networkLogs,
    screenshot := s,
    error_count := ((capture b.events).logs.filter (fun l => l.type == "error")).length,
    warn_count := ((capture b.events).logs.filter (fun l => l.type == "warn")).length }

/-- The status/errorText invariant of the spec, §3. -/
def netEntryOk (e : NetworkEntry) : Prop :=
  e.status = 0 ↔ e.errorText.isSome = true

instance (e : NetworkEntry) : Decidable (netEntryOk e) := by
  unfold netEntryOk; infer_instance

/-- Environment assumption on the automation engine: a `response` callback
reports a nonzero (real HTTP) status.  `requestfailed` is the only source of
status 0. -/
def eventStatusPos (te : TimedEvent) : Bool :=
  match te.ev with
  | .response _ status _ _ => status != 0
  | _ => true

def netInvariant (st : CaptureState) : Prop :=
  (∀ e ∈ st.networkLogs, netEntryOk e) ∧
  (∀ e, SocketMsg.networkLog e ∈ st.emitted → netEntryOk e)

def noDataUrl (st : CaptureState) : Prop :=
  (∀ e ∈ st.networkLogs, startsWithData e.url = false) ∧
  (∀ e, SocketMsg.networkLog e ∈ st.emitted → startsWithData e.url = false)

/-- Messages the capture handlers can emit: only entry publications, never a
screenshot or a completion notice. -/
def captureMsgOnly (st : CaptureState) : Prop :=
  ∀ m ∈ st.emitted, (∃ e, m = SocketMsg.consoleLog e) ∨ ∃ e, m = SocketMsg.networkLog e

/-- Tag test for the terminal `scan-complete` message. -/
def isTerminal (m : SocketMsg) : Bool :=
  match m with
  | .scanComplete _ => true
  | _ => false

/-- A row of the `scans` table (src/server.ts:9-20): `id` and `timestamp`
(insertion time, `DATETIME DEFAULT CURRENT_TIMESTAMP`, modelled as `Nat`) are
assigned by the store; `logs`/`network` hold the JSON-serialized collections,
modelled structurally since the serialization round-trips. -/
structure StoredScan where
  id : Nat
  url : String
  timestamp : Nat
  logs : List LogEntry
  network : List NetworkEntry
  screenshot : String
  error_count : Nat
  warn_count : Nat

deriving DecidableEq

/-- Projection selected by `SELECT id, url, timestamp, error_count,
warn_count FROM scans` (src/server.ts:32): no logs, network or screenshot. -/
structure ScanSummary where
  id : Nat
  url : String
  timestamp : Nat
  error_count : Nat
  warn_count : Nat

deriving DecidableEq

def toSummary (s : StoredScan) : ScanSummary :=
  { id := s.id, url := s.url, timestamp := s.timestamp,
    error_count := s.error_count, warn_count := s.warn_count }

/-- Insert one row into a list kept in descending timestamp order. -/
def insertByTime (s : StoredScan) : List StoredScan → List StoredScan
  | [] => [s]
  | t :: ts => if s.timestamp ≤ t.timestamp then t :: insertByTime s ts else s :: t :: ts

/-- `ORDER BY timestamp DESC`: the table rows sorted newest first (SQLite
leaves the relative order of equal timestamps unspecified; any descending
arrangement is a correct model). -/
def orderByTimeDesc (db : List StoredScan) : List StoredScan :=
  db.foldr insertByTime []

def timeDesc (a b : StoredScan) : Prop := b.timestamp ≤ a.timestamp

/-- Response of `GET /api/history` (src/server.ts:30-37). -/
inductive HistoryResponse where
  | ok (rows : List ScanSummary)
  | serverError (body : String)

deriving DecidableEq

/-- The `GET /api/history` handler (src/server.ts:30-37): the 50 most recent
rows by insertion timestamp, summary projection; 500 with a generic body when
the store read throws. -/
def apiHistory (dbRead : Except Unit (List StoredScan)) : HistoryResponse :=
  match dbRead with
  | .error _ => .serverError "Failed to fetch history"
  | .ok db => .ok (((orderByTimeDesc db).take 50).map toSummary)

/-- Response of `GET /api/history/:id` (src/server.ts:39-52). -/
inductive ScanResponse where
  | found (scan : StoredScan)
  | notFound
  | failure

deriving DecidableEq

/-- The `GET /api/history/:id` handler (src/server.ts:39-52): `SELECT * FROM
scans WHERE id = ?`, logs/network decoded from storage; 404 when no row
matches; 500 when the store read throws. -/
def apiHistoryId (dbRead : Except Unit (List StoredScan)) (i : Nat) : ScanResponse :=
  match dbRead with
  | .error _ => .failure
  | .ok db =>
    match db.find? (fun s => s.id == i) with
    | some s => .found s
    | none => .notFound

/-- Appending a finalized scan row to the table, with a store-assigned id and
insertion timestamp. -/
def toStored (newId now : Nat) (row : ScanRow) : StoredScan :=
  { id := newId, url := row.url, timestamp := now, logs := row.logs,
    network := row.network, screenshot := row.screenshot,
    error_count := row.error_count, warn_count := row.warn_count }

/-- The rows `GET /api/history` returns for a given table state. -/
def historyRows (db : List StoredScan) : List ScanSummary :=
  ((orderByTimeDesc db).take 50).map toSummary

/-- A small event stream: two console messages, one successful document
response, one failed script request. -/
def exEvents : List TimedEvent :=
  [⟨"2026-10-12T00:00:01Z", .console "log" "hello" ["hello"]⟩,
   ⟨"2026-10-12T00:00:02Z", .console "error" "boom" []⟩,
   ⟨"2026-10-12T00:00:03Z", .response "https://example.com/" 200 "GET" "document"⟩,
   ⟨"2026-10-12T00:00:04Z", .requestfailed "https://example.com/x.js" "GET" "script" none⟩]

/-- A run in which every external call succeeds. -/
def exSuccess : EngineBehavior :=
  { launch := .ok (), page := .ok (), events := exEvents, nav := .ok (),
    shot := .ok "img64", insertRes := .ok 7, close := .ok (),
    errTime := "2026-10-12T00:00:31Z" }

/-- A run in which navigation times out after the events fired. -/
def exNavFail : EngineBehavior :=
  { exSuccess with nav := .error "Navigation timeout of 30000 ms exceeded" }

/-- A run in which only the screenshot call fails. -/
def exShotFail : EngineBehavior :=
  { exSuccess with shot := .error "Screenshot failed" }

/-- A successful run whose `browser.close()` call rejects. -/
def exCloseFail : EngineBehavior :=
  { exSuccess with close := .error "Protocol error: Connection closed." }

/-- A two-row table state for the history endpoints. -/
def exDb : List StoredScan :=
  [{ id := 1, url := "https://a.example", timestamp := 10, logs := [],
     network := [], screenshot := "s1", error_count := 0, warn_count := 0 },
   { id := 2, url := "https://b.example", timestamp := 20,
     logs := [pageerrorEntry "t" "boom"], network := [], screenshot := "s2",
     error_count := 1, warn_count := 0 }]

theorem scanUrl_fail (url : String) (b : EngineBehavior) (e : String)
    (h : failMsg b = some e) :
    scanUrl url b =
      { emitted := emittedBeforeCatch b ++
          [.consoleLog (syntheticLog e b.errTime), .scanComplete (.error e)],
        inserted := [],
        closeCalls := closeCallsOf (acquiredBrowser b),
        propagated := propagatedOf (acquiredBrowser b) b.close } := by
  rcases hl : b.launch with el | ⟨⟩ <;>
    rcases hp : b.page with ep | ⟨⟩ <;>
      rcases hn : b.nav with en | ⟨⟩ <;>
        rcases hs : b.shot with es | s <;>
          rcases hi : b.insertRes with ei | i <;>
            simp_all [failMsg, scanUrl, catchOutput, emittedBeforeCatch, acquiredBrowser]

theorem scanUrl_success (url : String) (b : EngineBehavior) (s : String) (i : Nat)
    (hl : b.launch = .ok ()) (hp : b.page = .ok ()) (hn : b.nav = .ok ())
    (hs : b.shot = .ok s) (hi : b.insertRes = .ok i) :
    scanUrl url b =
      { emitted := (capture b.events).emitted ++
          [.screenshot s, .scanComplete (.success i)],
        inserted := [successRow url b s],
        closeCalls := 1,
        propagated := propagatedOf true b.close } := by
  simp [scanUrl, hl, hp, hn, hs, hi, successRow, closeCallsOf]

theorem failMsg_eq_none (b : EngineBehavior) (h : failMsg b = none) :
    b.launch = .ok () ∧ b.page = .ok () ∧ b.nav = .ok () ∧
      (∃ s, b.shot = .ok s) ∧ ∃ i, b.insertRes = .ok i := by
  rcases hl : b.launch with el | ⟨⟩ <;>
    rcases hp : b.page with ep | ⟨⟩ <;>
      rcases hn : b.nav with en | ⟨⟩ <;>
        rcases hs : b.shot with es | s <;>
          rcases hi : b.insertRes with ei | i <;>
            simp_all [failMsg]

theorem mem_inserted (url : String) (b : EngineBehavior) (row : ScanRow)
    (h : row ∈ (scanUrl url b).inserted) :
    ∃ s i, b.launch = .ok () ∧ b.page = .ok () ∧ b.nav = .ok () ∧
      b.shot = .ok s ∧ b.insertRes = .ok i ∧ row = successRow url b s := by
  rcases hf : failMsg b with _ | e
  · obtain ⟨hl, hp, hn, ⟨s, hs⟩, ⟨i, hi⟩⟩ := failMsg_eq_none b hf
    rw [scanUrl_success url b s i hl hp hn hs hi] at h
    simp only [List.mem_singleton] at h
    exact ⟨s, i, hl, hp, hn, hs, hi, h⟩
  · rw [scanUrl_fail url b e hf] at h
    simp at h

/-- Generic invariant preservation over the capture loop. -/
theorem foldl_handleEvent_invariant (P : CaptureState → Prop) (Q : TimedEvent → Bool)
    (hstep : ∀ st te, Q te = true → P st → P (handleEvent st te)) :
    ∀ (evs : List TimedEvent) (st : CaptureState),
      (∀ te ∈ evs, Q te = true) → P st → P (evs.foldl handleEvent st) := by
  intro evs
  induction evs with
  | nil => intro st _ hst; exact hst
  | cons te rest ih =>
      intro st hq hst
      simp only [List.foldl_cons]
      exact ih _ (fun x hx => hq x (List.mem_cons_of_mem _ hx))
        (hstep st te (hq te (List.mem_cons_self _ _)) hst)

theorem netInvariant_step (st : CaptureState) (te : TimedEvent)
    (hq : eventStatusPos te = true) (h : netInvariant st) :
    netInvariant (handleEvent st te) := by
  obtain ⟨h1, h2⟩ := h
  rcases te with ⟨time, ev⟩
  cases ev with
  | console mt tx ar =>
      refine ⟨h1, fun e he => ?_⟩
      simp only [handleEvent, List.mem_append, List.mem_singleton] at he
      rcases he with he | he
      · exact h2 e he
      · simp at he
  | pageerror tx =>
      refine ⟨h1, fun e he => ?_⟩
      simp only [handleEvent, List.mem_append, List.mem_singleton] at he
      rcases he with he | he
      · exact h2 e he
      · simp at he
  | response u status m rt =>
      have hstat : status ≠ 0 := by
        simpa [eventStatusPos] using hq
      by_cases hd : startsWithData u = true
      · simpa [handleEvent, hd] using ⟨h1, h2⟩
      · constructor
        · intro e he
          simp only [handleEvent, hd, List.mem_append, List.mem_singleton,
            Bool.not_eq_true, if_pos] at he
          rcases he with he | he
          · exact h1 e he
          · subst he; simp [netEntryOk, responseEntry, hstat]
        · intro e he
          simp only [handleEvent, hd, List.mem_append, List.mem_singleton,
            Bool.not_eq_true, if_pos] at he
          rcases he with he | he
          · exact h2 e he
          · rcases he with ⟨rfl⟩
            simp [netEntryOk, responseEntry, hstat]
  | requestfailed u m rt ft =>
      by_cases hd : startsWithData u = true
      · simpa [handleEvent, hd] using ⟨h1, h2⟩
      · constructor
        · intro e he
          simp only [handleEvent, hd, List.mem_append, List.mem_singleton,
            Bool.not_eq_true, if_pos] at he
          rcases he with he | he
          · exact h1 e he
          · subst he; simp [netEntryOk, requestfailedEntry]
        · intro e he
          simp only [handleEvent, hd, List.mem_append, List.mem_singleton,
            Bool.not_eq_true, if_pos] at he
          rcases he with he | he
          · exact h2 e he
          · rcases he with ⟨rfl⟩
            simp [netEntryOk, requestfailedEntry]

theorem netInvariant_capture (evs : List TimedEvent)
    (hq : ∀ te ∈ evs, eventStatusPos te = true) : netInvariant (capture evs) :=
  foldl_handleEvent_invariant netInvariant eventStatusPos netInvariant_step evs
    ⟨[], [], []⟩ hq ⟨by simp, by simp⟩

theorem noDataUrl_step (st : CaptureState) (te : TimedEvent)
    (h : noDataUrl st) : noDataUrl (handleEvent st te) := by
  obtain ⟨h1, h2⟩ := h
  rcases te with ⟨time, ev⟩
  cases ev with
  | console mt tx ar =>
      refine ⟨h1, fun e he => ?_⟩
      simp only [handleEvent, List.mem_append, List.mem_singleton] at he
      rcases he with he | he
      · exact h2 e he
      · simp at he
  | pageerror tx =>
      refine ⟨h1, fun e he => ?_⟩
      simp only [handleEvent, List.mem_append, List.mem_singleton] at he
      rcases he with he | he
      · exact h2 e he
      · simp at he
  | response u status m rt =>
      by_cases hd : startsWithData u = true
      · simpa [handleEvent, hd] using ⟨h1, h2⟩
      · constructor
        · intro e he
          simp only [handleEvent, hd, List.mem_append, List.mem_singleton,
            Bool.not_eq_true, if_pos] at he
          rcases he with he | he
          · exact h1 e he
          · subst he
            simpa [responseEntry] using hd
        · intro e he
          simp only [handleEvent, hd, List.mem_append, List.mem_singleton,
            Bool.not_eq_true, if_pos] at he
          rcases he with he | he
          · exact h2 e he
          · rcases he with ⟨rfl⟩
            simpa [responseEntry] using hd
  | requestfailed u m rt ft =>
      by_cases hd : startsWithData u = true
      · simpa [handleEvent, hd] using ⟨h1, h2⟩
      · constructor
        · intro e he
          simp only [handleEvent, hd, List.mem_append, List.mem_singleton,
            Bool.not_eq_true, if_pos] at he
          rcases he with he | he
          · exact h1 e he
          · subst he
            simpa [requestfailedEntry] using hd
        · intro e he
          simp only [handleEvent, hd, List.mem_append, List.mem_singleton,
            Bool.not_eq_true, if_pos] at he
          rcases he with he | he
          · exact h2 e he
          · rcases he with ⟨rfl⟩
            simpa [requestfailedEntry] using hd

theorem noDataUrl_capture (evs : List TimedEvent) : noDataUrl (capture evs) :=
  foldl_handleEvent_invariant noDataUrl (fun _ => true)
    (fun st te _ => noDataUrl_step st te) evs ⟨[], [], []⟩ (fun _ _ => rfl)
    ⟨by simp, by simp⟩

theorem captureMsgOnly_step (st : CaptureState) (te : TimedEvent)
    (h : captureMsgOnly st) : captureMsgOnly (handleEvent st te) := by
  rcases te with ⟨time, ev⟩
  cases ev with
  | console mt tx ar =>
      intro m hm
      simp only [handleEvent, List.mem_append, List.mem_singleton] at hm
      rcases hm with hm | hm
      · exact h m hm
      · exact Or.inl ⟨_, hm⟩
  | pageerror tx =>
      intro m hm
      simp only [handleEvent, List.mem_append, List.mem_singleton] at hm
      rcases hm with hm | hm
      · exact h m hm
      · exact Or.inl ⟨_, hm⟩
  | response u status m' rt =>
      by_cases hd : startsWithData u = true
      · simpa [handleEvent, hd] using h
      · intro m hm
        simp only [handleEvent, hd, List.mem_append, List.mem_singleton,
          Bool.not_eq_true, if_pos] at hm
        rcases hm with hm | hm
        · exact h m hm
        · exact Or.inr ⟨_, hm⟩
  | requestfailed u m' rt ft =>
      by_cases hd : startsWithData u = true
      · simpa [handleEvent, hd] using h
      · intro m hm
        simp only [handleEvent, hd, List.mem_append, List.mem_singleton,
          Bool.not_eq_true, if_pos] at hm
        rcases hm with hm | hm
        · exact h m hm
        · exact Or.inr ⟨_, hm⟩

theorem captureMsgOnly_capture (evs : List TimedEvent) : captureMsgOnly (capture evs) :=
  foldl_handleEvent_invariant captureMsgOnly (fun _ => true)
    (fun st te _ => captureMsgOnly_step st te) evs ⟨[], [], []⟩ (fun _ _ => rfl)
    (by intro m hm; simp at hm)

theorem countP_isTerminal_capture (evs : List TimedEvent) :
    (capture evs).emitted.countP isTerminal = 0 := by
  rw [List.countP_eq_zero]
  intro m hm
  rcases captureMsgOnly_capture evs m hm with ⟨e, rfl⟩ | ⟨e, rfl⟩ <;> simp [isTerminal]

theorem getLast?_append_pair {α : Type} (l : List α) (a b : α) :
    (l ++ [a, b]).getLast? = some b := by
  rw [show l ++ [a, b] = (l ++ [a]) ++ [b] by simp, List.getLast?_concat]

theorem mem_insertByTime (s x : StoredScan) (l : List StoredScan) :
    x ∈ insertByTime s l ↔ x = s ∨ x ∈ l := by
  induction l with
  | nil => simp [insertByTime]
  | cons t ts ih =>
      by_cases h : s.timestamp ≤ t.timestamp
      · rw [insertByTime, if_pos h, List.mem_cons, ih, List.mem_cons]
        tauto
      · rw [insertByTime, if_neg h, List.mem_cons, List.mem_cons]

theorem length_insertByTime (s : StoredScan) (l : List StoredScan) :
    (insertByTime s l).length = l.length + 1 := by
  induction l with
  | nil => simp [insertByTime]
  | cons t ts ih =>
      by_cases h : s.timestamp ≤ t.timestamp <;> simp [insertByTime, h, ih]

theorem pairwise_insertByTime (s : StoredScan) (l : List StoredScan)
    (hl : l.Pairwise timeDesc) : (insertByTime s l).Pairwise timeDesc := by
  induction l with
  | nil => simp [insertByTime]
  | cons t ts ih =>
      rcases List.pairwise_cons.mp hl with ⟨ht, hts⟩
      by_cases h : s.timestamp ≤ t.timestamp
      · rw [insertByTime, if_pos h]
        refine List.pairwise_cons.mpr ⟨?_, ih hts⟩
        intro x hx
        rcases (mem_insertByTime s x ts).mp hx with rfl | hx
        · exact h
        · exact ht x hx
      · rw [insertByTime, if_neg h]
        refine List.pairwise_cons.mpr ⟨?_, hl⟩
        intro x hx
        have hts' : t.timestamp ≤ s.timestamp := Nat.le_of_not_le h
        rcases List.mem_cons.mp hx with rfl | hx
        · exact hts'
        · exact Nat.le_trans (ht x hx) hts'

theorem mem_orderByTimeDesc (db : List StoredScan) (x : StoredScan) :
    x ∈ orderByTimeDesc db ↔ x ∈ db := by
  induction db with
  | nil => simp [orderByTimeDesc]
  | cons t ts ih =>
      simp only [orderByTimeDesc, List.foldr_cons] at *
      rw [mem_insertByTime, ih, List.mem_cons]

theorem length_orderByTimeDesc (db : List StoredScan) :
    (orderByTimeDesc db).length = db.length := by
  induction db with
  | nil => rfl
  | cons t ts ih =>
      simp only [orderByTimeDesc, List.foldr_cons] at *
      rw [length_insertByTime, ih, List.length_cons]

theorem pairwise_orderByTimeDesc (db : List StoredScan) :
    (orderByTimeDesc db).Pairwise timeDesc := by
  induction db with
  | nil => simp [orderByTimeDesc]
  | cons t ts ih =>
      simp only [orderByTimeDesc, List.foldr_cons] at *
      exact pairwise_insertByTime t _ ih

theorem find?_append_of_none {α : Type} (p : α → Bool) (l1 l2 : List α)
    (h : l1.find? p = none) : (l1 ++ l2).find? p = l2.find? p := by
  induction l1 with
  | nil => simp
  | cons a l ih =>
      rcases hp : p a with _ | _
      · rw [List.find?_cons_of_neg _ (by simp [hp])] at h
        simp only [List.cons_append]
        rw [List.find?_cons_of_neg _ (by simp [hp])]
        exact ih h
      · rw [List.find?_cons_of_pos _ hp] at h
        simp at h

example :
    capture [⟨"t1", .console "log" "hello" []⟩,
             ⟨"t2", .response "data:image/png;base64,xx" 200 "GET" "image"⟩,
             ⟨"t3", .requestfailed "https://a" "GET" "fetch" none⟩] =
      ⟨[consoleEntry "t1" "log" "hello" []],
       [requestfailedEntry "t3" "https://a" "GET" "fetch" none],
       [.consoleLog (consoleEntry "t1" "log" "hello" []),
        .networkLog (requestfailedEntry "t3" "https://a" "GET" "fetch" none)]⟩ := by
  decide

example :
    scanUrl "https://example.com"
      { launch := .ok (), page := .ok (), events := [⟨"t1", .console "error" "boom" []⟩],
        nav := .error "Navigation timeout of 30000 ms exceeded", shot := .ok "img",
        insertRes := .ok 1, close := .ok (), errTime := "te" } =
      { emitted := [.consoleLog (consoleEntry "t1" "error" "boom" []),
                    .consoleLog (syntheticLog "Navigation timeout of 30000 ms exceeded" "te"),
                    .scanComplete (.error "Navigation timeout of 30000 ms exceeded")],
        inserted := [], closeCalls := 1, propagated := none } := by
  decide

theorem countP_isTerminal_emittedBeforeCatch (b : EngineBehavior) :
    (emittedBeforeCatch b).countP isTerminal = 0 := by
  rcases hl : b.launch with el | ⟨⟩ <;>
    [skip; rcases hp : b.page with ep | ⟨⟩] <;>
    [skip; skip; rcases hn : b.nav with en | ⟨⟩] <;>
    [skip; skip; skip; rcases hs : b.shot with es | s] <;>
    simp [emittedBeforeCatch, hl, countP_isTerminal_capture, isTerminal,
      List.countP_append, List.countP_cons, *]

theorem networkLog_mem_emittedBeforeCatch (b : EngineBehavior) (e : NetworkEntry)
    (h : SocketMsg.networkLog e ∈ emittedBeforeCatch b) :
    SocketMsg.networkLog e ∈ (capture b.events).emitted := by
  rcases hl : b.launch with el | ⟨⟩ <;>
    [skip; rcases hp : b.page with ep | ⟨⟩] <;>
    [skip; skip; rcases hn : b.nav with en | ⟨⟩] <;>
    [skip; skip; skip; rcases hs : b.shot with es | s] <;>
    simp_all [emittedBeforeCatch]

theorem networkLog_mem_scanUrl (url : String) (b : EngineBehavior) (e : NetworkEntry)
    (h : SocketMsg.networkLog e ∈ (scanUrl url b).emitted) :
    SocketMsg.networkLog e ∈ (capture b.events).emitted := by
  rcases hf : failMsg b with _ | msg
  · obtain ⟨hl, hp, hn, ⟨s, hs⟩, ⟨i, hi⟩⟩ := failMsg_eq_none b hf
    rw [scanUrl_success url b s i hl hp hn hs hi] at h
    simp only [List.mem_append] at h
    rcases h with h | h
    · exact h
    · simp at h
  · rw [scanUrl_fail url b msg hf] at h
    simp only [List.mem_append] at h
    rcases h with h | h
    · exact networkLog_mem_emittedBeforeCatch b e h
    · simp at h

/-- C1 — counterexample: a navigation timeout after diagnostics were already
captured.  The claim predicts exactly one persisted ScanRecord; the handler's
catch block (src/server.ts:141-148) emits only socket messages and never
reaches the INSERT, so nothing at all is persisted. -/
theorem C1_counterexample :
    failMsg exNavFail = some "Navigation timeout of 30000 ms exceeded" ∧
    ¬ (scanUrl "https://example.com" exNavFail).inserted.length = 1 := by
  decide

/-- C1 (amended): for every scan attempt that fails, NO ScanRecord is
persisted; the log/network entries captured before the failure were published
live to the client but are discarded from persistence, and exactly one
synthetic error-kind log entry describing the failure is published to the
client (followed by the error completion notice), also without being
persisted. -/
theorem C1_failed_scan_persists_nothing (url : String) (b : EngineBehavior)
    (e : String) (h : failMsg b = some e) :
    (scanUrl url b).inserted = [] ∧
    (scanUrl url b).emitted =
      emittedBeforeCatch b ++
        [.consoleLog (syntheticLog e b.errTime), .scanComplete (.error e)] := by
  rw [scanUrl_fail url b e h]
  exact ⟨rfl, rfl⟩

theorem C1_witness :
    failMsg exNavFail = some "Navigation timeout of 30000 ms exceeded" ∧
    ((scanUrl "https://example.com" exNavFail).inserted = [] ∧
     (scanUrl "https://example.com" exNavFail).emitted =
       emittedBeforeCatch exNavFail ++
         [.consoleLog (syntheticLog "Navigation timeout of 30000 ms exceeded"
            exNavFail.errTime),
          .scanComplete (.error "Navigation timeout of 30000 ms exceeded")]) :=
  ⟨by decide,
   C1_failed_scan_persists_nothing "https://example.com" exNavFail
     "Navigation timeout of 30000 ms exceeded" (by decide)⟩

/-- C2 — counterexample: launch and navigation succeed, the screenshot call
fails.  The claim predicts a success outcome with a persisted record lacking
only the screenshot; in src/server.ts the screenshot failure falls into the
same catch block as a navigation failure, so no record is persisted and the
terminal notice carries status error. -/
theorem C2_counterexample :
    exShotFail.nav = .ok () ∧ exShotFail.shot = .error "Screenshot failed" ∧
    (scanUrl "https://example.com" exShotFail).inserted = [] ∧
    (scanUrl "https://example.com" exShotFail).emitted.getLast? =
      some (.scanComplete (.error "Screenshot failed")) := by
  decide

/-- C2 (amended): a screenshot failure after successful launch and navigation
is fatal to the scan outcome: no record is persisted and the client receives
the synthetic error log entry followed by an error completion notice. -/
theorem C2_screenshot_failure_is_fatal (url : String) (b : EngineBehavior)
    (e : String) (hl : b.launch = .ok ()) (hp : b.page = .ok ())
    (hn : b.nav = .ok ()) (hs : b.shot = .error e) :
    (scanUrl url b).inserted = [] ∧
    (scanUrl url b).emitted =
      (capture b.events).emitted ++
        [.consoleLog (syntheticLog e b.errTime), .scanComplete (.error e)] := by
  have hf : failMsg b = some e := by simp [failMsg, hl, hp, hn, hs]
  have he : emittedBeforeCatch b = (capture b.events).emitted := by
    simp [emittedBeforeCatch, hl, hp, hn, hs]
  rw [scanUrl_fail url b e hf, he]
  exact ⟨rfl, rfl⟩

theorem C2_witness :
    exShotFail.launch = .ok () ∧ exShotFail.page = .ok () ∧
    exShotFail.nav = .ok () ∧ exShotFail.shot = .error "Screenshot failed" ∧
    ((scanUrl "https://example.com" exShotFail).inserted = [] ∧
     (scanUrl "https://example.com" exShotFail).emitted =
       (capture exShotFail.events).emitted ++
         [.consoleLog (syntheticLog "Screenshot failed" exShotFail.errTime),
          .scanComplete (.error "Screenshot failed")]) :=
  ⟨by decide, by decide, by decide, by decide,
   C2_screenshot_failure_is_fatal "https://example.com" exShotFail
     "Screenshot failed" (by decide) (by decide) (by decide) (by decide)⟩

/-- C3 — counterexample: a fully successful scan whose `browser.close()`
rejects.  The claim says a close error is absorbed and never propagated; the
finally block (src/server.ts:149-153) has no guard around `await
browser.close()`, so the rejection escapes the handler. -/
theorem C3_counterexample :
    exCloseFail.close = .error "Protocol error: Connection closed." ∧
    (scanUrl "https://example.com" exCloseFail).closeCalls = 1 ∧
    ¬ (scanUrl "https://example.com" exCloseFail).propagated = none := by
  decide

/-- C3 (amended): if an automation context was acquired it is closed exactly
once on every exit path, and close is not invoked when launch failed; however
an error raised by the close call itself is NOT absorbed: it propagates out
of the handler. -/
theorem C3_close_exactly_once_error_propagates (url : String) (b : EngineBehavior) :
    (scanUrl url b).closeCalls = closeCallsOf (acquiredBrowser b) ∧
    (acquiredBrowser b = false → (scanUrl url b).closeCalls = 0) ∧
    (acquiredBrowser b = true → (scanUrl url b).closeCalls = 1) ∧
    (scanUrl url b).propagated = propagatedOf (acquiredBrowser b) b.close ∧
    (∀ e, b.close = .error e → acquiredBrowser b = true →
        (scanUrl url b).propagated = some e) := by
  have main : (scanUrl url b).closeCalls = closeCallsOf (acquiredBrowser b) ∧
      (scanUrl url b).propagated = propagatedOf (acquiredBrowser b) b.close := by
    rcases hf : failMsg b with _ | e
    · obtain ⟨hl, hp, hn, ⟨s, hs⟩, ⟨i, hi⟩⟩ := failMsg_eq_none b hf
      rw [scanUrl_success url b s i hl hp hn hs hi]
      have ha : acquiredBrowser b = true := by simp [acquiredBrowser, hl]
      rw [ha]
      exact ⟨rfl, rfl⟩
    · rw [scanUrl_fail url b e hf]
      exact ⟨rfl, rfl⟩
  obtain ⟨h1, h2⟩ := main
  refine ⟨h1, ?_, ?_, h2, ?_⟩
  · intro ha; rw [h1, ha]; rfl
  · intro ha; rw [h1, ha]; rfl
  · intro e he ha
    rw [h2, ha]
    simp [propagatedOf, he]

theorem C3_witness :
    (scanUrl "https://example.com" exCloseFail).closeCalls =
      closeCallsOf (acquiredBrowser exCloseFail) ∧
    (acquiredBrowser exCloseFail = false →
      (scanUrl "https://example.com" exCloseFail).closeCalls = 0) ∧
    (acquiredBrowser exCloseFail = true →
      (scanUrl "https://example.com" exCloseFail).closeCalls = 1) ∧
    (scanUrl "https://example.com" exCloseFail).propagated =
      propagatedOf (acquiredBrowser exCloseFail) exCloseFail.close ∧
    (∀ e, exCloseFail.close = .error e → acquiredBrowser exCloseFail = true →
        (scanUrl "https://example.com" exCloseFail).propagated = some e) :=
  C3_close_exactly_once_error_propagates "https://example.com" exCloseFail

/-- C4 — confirmed: every run emits exactly one terminal `scan-complete`
message, as the last socket message of the run; on a fully successful run it
carries status success and the store-assigned record identifier (payload
field `scanId`, src/server.ts:139), and on any failure it carries status
error and the failure's message (src/server.ts:148), including when the page
never loaded. -/
theorem C4_exactly_one_terminal_notice (url : String) (b : EngineBehavior) :
    (scanUrl url b).emitted.countP isTerminal = 1 ∧
    (∀ e, failMsg b = some e →
        (scanUrl url b).emitted.getLast? =
          some (.scanComplete (.error e))) ∧
    (failMsg b = none →
        ∃ i, b.insertRes = .ok i ∧
          (scanUrl url b).emitted.getLast? =
            some (.scanComplete (.success i))) := by
  rcases hf : failMsg b with _ | e
  · obtain ⟨hl, hp, hn, ⟨s, hs⟩, ⟨i, hi⟩⟩ := failMsg_eq_none b hf
    rw [scanUrl_success url b s i hl hp hn hs hi]
    refine ⟨?_, ?_, ?_⟩
    · simp [List.countP_append, List.countP_cons, countP_isTerminal_capture,
        isTerminal]
    · intro e he
      exact Option.noConfusion he
    · intro _
      exact ⟨i, hi, getLast?_append_pair _ _ _⟩
  · rw [scanUrl_fail url b e hf]
    refine ⟨?_, ?_, ?_⟩
    · simp [List.countP_append, List.countP_cons,
        countP_isTerminal_emittedBeforeCatch, isTerminal]
    · intro e' he'
      injection he' with hh
      subst hh
      exact getLast?_append_pair _ _ _
    · intro hnone
      exact Option.noConfusion hnone

theorem C4_witness :
    (scanUrl "https://example.com" exSuccess).emitted.countP isTerminal = 1 ∧
    (∀ e, failMsg exSuccess = some e →
        (scanUrl "https://example.com" exSuccess).emitted.getLast? =
          some (.scanComplete (.error e))) ∧
    (failMsg exSuccess = none →
        ∃ i, exSuccess.insertRes = .ok i ∧
          (scanUrl "https://example.com" exSuccess).emitted.getLast? =
            some (.scanComplete (.success i))) :=
  C4_exactly_one_terminal_notice "https://example.com" exSuccess

/-- C5 — confirmed (under the engine contract that a `response` callback
carries a nonzero HTTP status): every NetworkEntry published or persisted has
status 0 iff its errorText is present; a `requestfailed` entry always has
status 0 and errorText defaulting to "Failed" when the engine supplies none
(src/server.ts:115-118), and a `response` entry never carries errorText
(src/server.ts:99-105). -/
theorem C5_status_zero_iff_errorText (url : String) (b : EngineBehavior)
    (h : ∀ te ∈ b.events, eventStatusPos te = true) :
    (∀ e, SocketMsg.networkLog e ∈ (scanUrl url b).emitted → netEntryOk e) ∧
    (∀ row ∈ (scanUrl url b).inserted, ∀ e ∈ row.network, netEntryOk e) ∧
    (∀ time u method rt ft,
        (requestfailedEntry time u method rt ft).status = 0 ∧
        (requestfailedEntry time u method rt ft).errorText =
          some (ft.getD "Failed")) ∧
    (∀ time u status method rt,
        (responseEntry time u status method rt).errorText = none) := by
  refine ⟨?_, ?_, ?_, ?_⟩
  · intro e he
    exact (netInvariant_capture b.events h).2 e (networkLog_mem_scanUrl url b e he)
  · intro row hrow e he
    obtain ⟨s, i, _, _, _, _, _, rfl⟩ := mem_inserted url b row hrow
    exact (netInvariant_capture b.events h).1 e he
  · intro time u method rt ft
    exact ⟨rfl, rfl⟩
  · intro time u status method rt
    rfl

theorem C5_witness :
    (∀ te ∈ exSuccess.events, eventStatusPos te = true) ∧
    ((∀ e, SocketMsg.networkLog e ∈
        (scanUrl "https://example.com" exSuccess).emitted → netEntryOk e) ∧
     (∀ row ∈ (scanUrl "https://example.com" exSuccess).inserted,
        ∀ e ∈ row.network, netEntryOk e) ∧
     (∀ time u method rt ft,
        (requestfailedEntry time u method rt ft).status = 0 ∧
        (requestfailedEntry time u method rt ft).errorText =
          some (ft.getD "Failed")) ∧
     (∀ time u status method rt,
        (responseEntry time u status method rt).errorText = none)) :=
  ⟨by decide, C5_status_zero_iff_errorText "https://example.com" exSuccess (by decide)⟩

/-- C6 — confirmed: the persisted record's error_count is the number of its
log entries whose kind is error, and warn_count the number whose kind is
warn, computed at finalization from the accumulated log sequence
(src/server.ts:132-137). -/
theorem C6_counts_derived (url : String) (b : EngineBehavior) (row : ScanRow)
    (h : row ∈ (scanUrl url b).inserted) :
    row.error_count = (row.logs.filter (fun l => l.type == "error")).length ∧
    row.warn_count = (row.logs.filter (fun l => l.type == "warn")).length := by
  obtain ⟨s, i, _, _, _, _, _, rfl⟩ := mem_inserted url b row h
  exact ⟨rfl, rfl⟩

theorem C6_witness :
    (successRow "https://example.com" exSuccess "img64" ∈
      (scanUrl "https://example.com" exSuccess).inserted) ∧
    ((successRow "https://example.com" exSuccess "img64").error_count =
      ((successRow "https://example.com" exSuccess "img64").logs.filter
        (fun l => l.type == "error")).length ∧
     (successRow "https://example.com" exSuccess "img64").warn_count =
      ((successRow "https://example.com" exSuccess "img64").logs.filter
        (fun l => l.type == "warn")).length) :=
  ⟨by decide,
   C6_counts_derived "https://example.com" exSuccess
     (successRow "https://example.com" exSuccess "img64") (by decide)⟩

/-- C7 — confirmed: a network event whose URL starts with the `data:` scheme
is discarded at capture time on both the response and requestfailed paths
(the handler state is unchanged, so it is neither published nor accumulated),
and consequently no published or persisted NetworkEntry has a `data:`-scheme
URL. -/
theorem C7_data_urls_discarded (url : String) (b : EngineBehavior) :
    (∀ e, SocketMsg.networkLog e ∈ (scanUrl url b).emitted →
        startsWithData e.url = false) ∧
    (∀ row ∈ (scanUrl url b).inserted, ∀ e ∈ row.network,
        startsWithData e.url = false) ∧
    (∀ st time u status method rt, startsWithData u = true →
        handleEvent st ⟨time, .response u status method rt⟩ = st) ∧
    (∀ st time u method rt ft, startsWithData u = true →
        handleEvent st ⟨time, .requestfailed u method rt ft⟩ = st) := by
  refine ⟨?_, ?_, ?_, ?_⟩
  · intro e he
    exact (noDataUrl_capture b.events).2 e (networkLog_mem_scanUrl url b e he)
  · intro row hrow e he
    obtain ⟨s, i, _, _, _, _, _, rfl⟩ := mem_inserted url b row hrow
    exact (noDataUrl_capture b.events).1 e he
  · intro st time u status method rt hd
    simp [handleEvent, hd]
  · intro st time u method rt ft hd
    simp [handleEvent, hd]

theorem C7_witness :
    (∀ e, SocketMsg.networkLog e ∈
        (scanUrl "https://example.com" exSuccess).emitted →
        startsWithData e.url = false) ∧
    (∀ row ∈ (scanUrl "https://example.com" exSuccess).inserted,
        ∀ e ∈ row.network, startsWithData e.url = false) ∧
    (∀ st time u status method rt, startsWithData u = true →
        handleEvent st ⟨time, .response u status method rt⟩ = st) ∧
    (∀ st time u method rt ft, startsWithData u = true →
        handleEvent st ⟨time, .requestfailed u method rt ft⟩ = st) :=
  C7_data_urls_discarded "https://example.com" exSuccess

/-- C8 — confirmed: `GET /api/history` on a table of N rows returns
min(N, 50) summaries ordered by insertion timestamp descending (newest
first), each a projection to id, url, timestamp, error_count and warn_count
of some stored row (the ScanSummary shape omits logs, network and
screenshot); a storage failure yields the generic server error
(src/server.ts:30-37). -/
theorem C8_history_listing (db : List StoredScan) :
    apiHistory (.error ()) = .serverError "Failed to fetch history" ∧
    apiHistory (.ok db) = .ok (historyRows db) ∧
    (historyRows db).length = min db.length 50 ∧
    (historyRows db).Pairwise (fun a b => b.timestamp ≤ a.timestamp) ∧
    ∀ x ∈ historyRows db, ∃ r ∈ db, x = toSummary r := by
  refine ⟨rfl, rfl, ?_, ?_, ?_⟩
  · rw [historyRows, List.length_map, List.length_take, length_orderByTimeDesc,
      Nat.min_comm]
  · rw [historyRows]
    refine List.pairwise_map.mpr ?_
    exact ((pairwise_orderByTimeDesc db).sublist (List.take_sublist _ _))
  · intro x hx
    rw [historyRows, List.mem_map] at hx
    obtain ⟨r, hr, rfl⟩ := hx
    exact ⟨r, (mem_orderByTimeDesc db r).mp (List.mem_of_mem_take hr), rfl⟩

theorem C8_witness :
    apiHistory (.error ()) = .serverError "Failed to fetch history" ∧
    apiHistory (.ok exDb) = .ok (historyRows exDb) ∧
    (historyRows exDb).length = min exDb.length 50 ∧
    (historyRows exDb).Pairwise (fun a b => b.timestamp ≤ a.timestamp) ∧
    (∀ x ∈ historyRows exDb, ∃ r ∈ exDb, x = toSummary r) :=
  C8_history_listing exDb

/-- C9 — confirmed: `GET /api/history/{id}` returns the not-found outcome
when no row has the requested id, the full stored record (with logs and
network decoded from their stored serialization) when one does, and the
server-failure outcome when the store read throws; for a record persisted by
a scan, the returned logs/network are exactly the lists accumulated during
capture, in order (src/server.ts:39-52). -/
theorem C9_get_by_id (db : List StoredScan) (i : Nat) (url : String)
    (b : EngineBehavior) (newId now : Nat) :
    apiHistoryId (.error ()) i = .failure ∧
    ((∀ s ∈ db, ¬ s.id = i) → apiHistoryId (.ok db) i = .notFound) ∧
    (∀ row ∈ (scanUrl url b).inserted, (∀ s ∈ db, ¬ s.id = newId) →
        apiHistoryId (.ok (db ++ [toStored newId now row])) newId =
          .found (toStored newId now row) ∧
        (toStored newId now row).logs = (capture b.events).logs ∧
        (toStored newId now row).network = (capture b.events).networkLogs) := by
  refine ⟨rfl, ?_, ?_⟩
  · intro hno
    have hfind : db.find? (fun s => s.id == i) = none := by
      rw [List.find?_eq_none]
      intro s hs
      simpa using hno s hs
    simp [apiHistoryId, hfind]
  · intro row hrow hno
    have hfind : db.find? (fun s => s.id == newId) = none := by
      rw [List.find?_eq_none]
      intro s hs
      simpa using hno s hs
    obtain ⟨s, ii, _, _, _, _, _, rfl⟩ := mem_inserted url b row hrow
    refine ⟨?_, rfl, rfl⟩
    rw [apiHistoryId, find?_append_of_none _ db _ hfind]
    simp [toStored]

theorem C9_witness :
    apiHistoryId (.error ()) 3 = .failure ∧
    ((∀ s ∈ exDb, ¬ s.id = 3) → apiHistoryId (.ok exDb) 3 = .notFound) ∧
    (∀ row ∈ (scanUrl "https://example.com" exSuccess).inserted,
        (∀ s ∈ exDb, ¬ s.id = 3) →
        apiHistoryId (.ok (exDb ++ [toStored 3 30 row])) 3 =
          .found (toStored 3 30 row) ∧
        (toStored 3 30 row).logs = (capture exSuccess.events).logs ∧
        (toStored 3 30 row).network = (capture exSuccess.events).networkLogs) :=
  C9_get_by_id exDb 3 "https://example.com" exSuccess 3 30

/-- C10 — confirmed (implicit claim): a row is inserted exactly when launch,
navigation, screenshot and the INSERT itself all succeed; every persisted row
carries the screenshot string returned by the screenshot call (never an
absent screenshot); and on the success path persistence is the final pipeline
step, followed only by the terminal completion notice. -/
theorem C10_insert_only_on_full_success (url : String) (b : EngineBehavior) :
    (∀ row ∈ (scanUrl url b).inserted,
        b.launch = .ok () ∧ b.page = .ok () ∧ b.nav = .ok () ∧
        ∃ s, b.shot = .ok s ∧ row.screenshot = s) ∧
    (¬ (scanUrl url b).inserted = [] ↔ failMsg b = none) ∧
    (∀ s i, b.shot = .ok s → b.insertRes = .ok i → failMsg b = none →
        (scanUrl url b).inserted = [successRow url b s] ∧
        (scanUrl url b).emitted =
          (capture b.events).emitted ++
            [.screenshot s, .scanComplete (.success i)]) := by
  refine ⟨?_, ?_, ?_⟩
  · intro row hrow
    obtain ⟨s, i, hl, hp, hn, hs, hi, rfl⟩ := mem_inserted url b row hrow
    exact ⟨hl, hp, hn, s, hs, rfl⟩
  · constructor
    · intro hne
      rcases hf : failMsg b with _ | e
      · rfl
      · rw [scanUrl_fail url b e hf] at hne
        simp at hne
    · intro hf
      obtain ⟨hl, hp, hn, ⟨s, hs⟩, ⟨i, hi⟩⟩ := failMsg_eq_none b hf
      rw [scanUrl_success url b s i hl hp hn hs hi]
      simp
  · intro s i hs hi hf
    obtain ⟨hl, hp, hn, _, _⟩ := failMsg_eq_none b hf
    rw [scanUrl_success url b s i hl hp hn hs hi]
    exact ⟨rfl, rfl⟩

theorem C10_witness :
    (∀ row ∈ (scanUrl "https://example.com" exSuccess).inserted,
        exSuccess.launch = .ok () ∧ exSuccess.page = .ok () ∧
        exSuccess.nav = .ok () ∧
        ∃ s, exSuccess.shot = .ok s ∧ row.screenshot = s) ∧
    (¬ (scanUrl "https://example.com" exSuccess).inserted = [] ↔
        failMsg exSuccess = none) ∧
    (∀ s i, exSuccess.shot = .ok s → exSuccess.insertRes = .ok i →
        failMsg exSuccess = none →
        (scanUrl "https://example.com" exSuccess).inserted =
          [successRow "https://example.com" exSuccess s] ∧
        (scanUrl "https://example.com" exSuccess).emitted =
          (capture exSuccess.events).emitted ++
            [.screenshot s, .scanComplete (.success i)]) :=
  C10_insert_only_on_full_success "https://example.com" exSuccess

end ConsoleViewer

